import Mathlib

/-!
Verification development for the kernel-execution profiler of `tfjs-core`
(`src/tfjs-core/src/profiler.ts`).  The file embeds the data model and the
three operations of that source file — `Profiler.profileKernel`,
`checkComputationForErrors` and `Logger.logKernelProfile` — as executable
Lean definitions, and proves the specified properties about them.

Modelling conventions:
* A JavaScript number, as consumed by this file, is used only through
  `isNaN`, `isFinite` and string interpolation; it is embedded as a record
  carrying those three observations (`JSNumber`).
* A JavaScript object used as a map (`NamedTensorMap`) is embedded as an
  association list in insertion order, which is the order `for (const name
  in inputs)` iterates string keys.
* Console effects (`console.warn`, `console.log`) are embedded as returned
  lists of emitted strings / events rather than hidden side effects.
* The promise graph of `profileKernel` is embedded explicitly: the
  synchronous phase returns the closure result together with the list of
  synchronously performed events, and each output descriptor gets a
  continuation whose emitted events are a function of which deferrals
  (that output's data-read, the shared timer) have resolved.  The backend
  timer is assumed, per its stated contract, to invoke the wrapper it is
  given synchronously exactly once; that invocation is the `computeCall`
  event of the trace.
-/

namespace TfjsProfiler

/-- The `DataType` union of `types.ts` as used by the profiler:
`float32 | int32 | bool | complex64 | string`. -/
inductive DataType where
  | float32
  | int32
  | bool
  | complex64
  | string
deriving DecidableEq, Repr

/-- A JavaScript number as observed by the profiler: its rendering under
string interpolation, and its `isNaN` / `isFinite` classification. -/
structure JSNumber where
  render : String
  isNaN : Bool
  isFinite : Bool
deriving DecidableEq, Repr

/-- `BackendValues`: the raw numeric values read back from a tensor. -/
abbrev BackendValues := List JSNumber

/-- `TensorInfo` of `kernel_registry.ts`: an output descriptor with an opaque
data handle (modelled as `Nat`), a shape and a data type. -/
structure TensorInfo where
  dataId : Nat
  shape : List Nat
  dtype : DataType
deriving DecidableEq, Repr

/-- `NamedTensorMap`: mapping from input name to tensor descriptor, in
insertion order. -/
abbrev NamedTensorMap := List (String × TensorInfo)

/-- Modelled from the spec: the `TimingResult` the backend timer's deferred
handle resolves to (its type lives in `backends/backend.ts`, which is not
under `src/`): elapsed wall time in milliseconds (`kernelMs`) plus an
optional extra-info accessor (`getExtraProfileInfo`). -/
structure TimingInfo where
  kernelMs : Nat
  getExtraProfileInfo : Option String
deriving DecidableEq, Repr

/-- Outcome of the deferred data-read for one output: the promise either
resolves with the raw values or rejects. -/
inductive ReadOutcome where
  | resolved (vals : BackendValues)
  | rejected (err : String)
deriving DecidableEq, Repr

/-- The warning text emitted by `checkComputationForErrors`:
`Found ${num} in the result of '${kernelName}'`. -/
def warnMsg (num : JSNumber) (kernelName : String) : String :=
  "Found " ++ num.render ++ " in the result of \x27" ++ kernelName ++ "\x27"

/-- The scanning loop of `checkComputationForErrors`: walk the values in
order; at the first value with `isNaN(num) || !isFinite(num)`, emit one
warning and return `true`; if no value matches, return `false`. -/
def scanVals (kernelName : String) : List JSNumber → Bool × List String
  | [] => (false, [])
  | num :: rest =>
    if num.isNaN || !num.isFinite then
      (true, [warnMsg num kernelName])
    else
      scanVals kernelName rest

/-- `checkComputationForErrors(vals, dtype, kernelName)`: returns `false`
at once when `dtype !== 'float32'`; otherwise scans the values.  The second
component is the list of `console.warn` lines emitted. -/
def checkComputationForErrors (vals : BackendValues) (dtype : DataType)
    (kernelName : String) : Bool × List String :=
  if dtype ≠ DataType.float32 then
    (false, [])
  else
    scanVals kernelName vals

/-- The predicate the scan matches on: `isNaN(num) || !isFinite(num)`. -/
def badValue (num : JSNumber) : Bool :=
  num.isNaN || !num.isFinite

/-- The generic result type `T extends TensorInfo | TensorInfo[]` of
`profileKernel`: either a single descriptor or an ordered sequence. -/
inductive KernelOutput where
  | single (t : TensorInfo)
  | many (ts : List TensorInfo)
deriving DecidableEq, Repr

/-- The normalisation `Array.isArray(result) ? result : [result]`. -/
def toResultsList : KernelOutput → List TensorInfo
  | .single t => [t]
  | .many ts => ts

/-- One observable event of a `profileKernel` run. -/
inductive Event where
  | timerCall
  | computeCall
  | dataRead (dataId : Nat)
  | warn (msg : String)
  | logCall (name : String) (r : TensorInfo) (vals : BackendValues)
      (timeMs : Nat) (inputs : NamedTensorMap) (extraInfo : String)
deriving DecidableEq, Repr

/-- Event classifier: is this a logger call? -/
def Event.isLogCall : Event → Bool
  | .logCall .. => true
  | _ => false

/-- Event classifier: is this a data-read? -/
def Event.isDataRead : Event → Bool
  | .dataRead _ => true
  | _ => false

/-- Event classifier: is this the compute-closure invocation? -/
def Event.isComputeCall : Event → Bool
  | .computeCall => true
  | _ => false

/-- Event classifier: is this the backend-timer invocation? -/
def Event.isTimerCall : Event → Bool
  | .timerCall => true
  | _ => false

/-- Event classifier: is this a console warning? -/
def Event.isWarn : Event → Bool
  | .warn _ => true
  | _ => false

namespace Profiler

/-- The continuation attached to one output descriptor `r` by
`profileKernel`:

`this.dataReader(r.dataId).then(vals => { checkComputationForErrors(...);
timer.then(timing => { ... logKernelProfile(...) }) })`.

Nothing runs until that output's read promise has resolved
(`readResolved`); a rejected read leaves the `then` continuation unrun (the
dangling promise of the source).  Once the read resolves with `vals`,
validation runs and emits its warnings; the logger call is additionally
gated on the timer deferral (`timerResolved`), and passes the extra-info
string when `timing.getExtraProfileInfo != null`, else the empty string. -/
def outputContinuation (kernelName : String) (inputs : NamedTensorMap)
    (read : ReadOutcome) (timing : TimingInfo)
    (readResolved timerResolved : Bool) (r : TensorInfo) : List Event :=
  if readResolved then
    match read with
    | .rejected _ => []
    | .resolved vals =>
      (checkComputationForErrors vals r.dtype kernelName).2.map Event.warn ++
      (if timerResolved then
        [Event.logCall kernelName r vals timing.kernelMs inputs
          (timing.getExtraProfileInfo.getD "")]
      else
        [])
  else
    []

/-- `Profiler.profileKernel(kernelName, inputs, f)`.

The closure `f` is represented by its output `fOut` (claim C3 establishes
that it is invoked exactly once, as the single `computeCall` event of the
synchronous trace).  The injected collaborators are the data-reader
environment `reads` (outcome of the read promise per data handle) and the
timer's `timing` result; `readResolved` / `timerResolved` say which
deferrals have resolved so far.

Returned triple:
* the value returned to the caller (`result`, exactly as captured from the
  wrapper the timer invoked),
* the events performed synchronously before returning: the timer call, the
  compute-closure call it performs, then one `dataReader` call per
  normalised output descriptor (`results.forEach`),
* per output descriptor, the events its continuation has emitted so far. -/
def profileKernel (kernelName : String) (inputs : NamedTensorMap)
    (fOut : KernelOutput) (reads : Nat → ReadOutcome) (timing : TimingInfo)
    (readResolved : Nat → Bool) (timerResolved : Bool) :
    KernelOutput × List Event × List (List Event) :=
  let results := toResultsList fOut
  (fOut,
   [Event.timerCall, Event.computeCall] ++
     results.map (fun r => Event.dataRead r.dataId),
   results.map (fun r =>
     outputContinuation kernelName inputs (reads r.dataId) timing
       (readResolved r.dataId) timerResolved r))

end Profiler

/-- JavaScript `Array.prototype.toString` on a shape: the dimensions joined
with commas (empty string for the empty shape). -/
def shapeToString : List Nat → String
  | [] => ""
  | [n] => toString n
  | n :: rest => toString n ++ "," ++ shapeToString rest

/-- Modelled from the spec: `util.rightPad` (`util.ts` is not under
`src/`); pads the string to the stated column width, leaving strings
already at least that long unchanged. -/
def rightPad (a : String) (size : Nat) : String :=
  if size ≤ a.length then a
  else a ++ String.mk (List.replicate (size - a.length) ' ')

/-- Modelled from the spec: `util.sizeFromShape` (`util.ts` is not under
`src/`); the element count derived from a shape is the product of its
dimensions. -/
def sizeFromShape (shape : List Nat) : Nat :=
  shape.foldl (· * ·) 1

namespace Logger

/-- One iteration of the input-description loop of `logKernelProfile`:
`${name}: ${inputRank}D ${inputRank > 0 ? inputShape : ''} `. -/
def inputDescEntry (name : String) (t : TensorInfo) : String :=
  name ++ ": " ++ toString t.shape.length ++ "D " ++
    (if t.shape.length > 0 then shapeToString t.shape else "") ++ " "

/-- The accumulated `inputShapesDescription` over the inputs mapping, in
iteration order. -/
def inputShapesDescription : NamedTensorMap → String
  | [] => ""
  | (name, t) :: rest => inputDescEntry name t ++ inputShapesDescription rest

/-- `Logger.logKernelProfile(name, result, vals, timeMs, inputs,
extraInfo)`: emits one `console.log` line (returned as the list of emitted
lines).  `vals` is accepted but unused, as in the source.  The line is the
format string of the source's single `console.log` call, with `%c` style
markers and tab separators kept verbatim. -/
def logKernelProfile (name : String) (result : TensorInfo)
    (vals : BackendValues) (timeMs : Nat) (inputs : NamedTensorMap)
    (extraInfo : String) : List String :=
  let time := rightPad (toString timeMs ++ "ms") 9
  let paddedName := rightPad name 25
  let rank := result.shape.length
  let size := sizeFromShape result.shape
  let shape := rightPad (shapeToString result.shape) 14
  let inputShapesDesc := inputShapesDescription inputs
  let _ := vals
  ["%c" ++ paddedName ++ "\t%c" ++ time ++ "\t%c" ++ toString rank ++ "D " ++
    shape ++ "\t%c" ++ toString size ++ "\t%c" ++ inputShapesDesc ++
    "\t%c" ++ extraInfo]

end Logger

/-- A finite JavaScript number with the given rendering. -/
def finiteNum (render : String) : JSNumber :=
  { render := render, isNaN := false, isFinite := true }

/-- JavaScript `NaN`. -/
def nanNum : JSNumber :=
  { render := "NaN", isNaN := true, isFinite := false }

/-- JavaScript `Infinity`. -/
def infNum : JSNumber :=
  { render := "Infinity", isNaN := false, isFinite := false }

/-- A sample float32 output descriptor of shape `[2,2]`. -/
def sampleTensor : TensorInfo :=
  { dataId := 0, shape := [2, 2], dtype := DataType.float32 }

/-- A sample timing result with no extra-info accessor. -/
def sampleTiming : TimingInfo :=
  { kernelMs := 5, getExtraProfileInfo := none }

/-- A sample inputs mapping `{a: shape [2,2], b: shape [2,2]}`. -/
def sampleInputs : NamedTensorMap :=
  [("a", sampleTensor), ("b", sampleTensor)]

/-- A sample raw-value read-back `[1, 2, 3, 4]`. -/
def sampleVals : BackendValues :=
  [finiteNum "1", finiteNum "2", finiteNum "3", finiteNum "4"]

theorem scanVals_fst (k : String) (vals : List JSNumber) :
    (scanVals k vals).1 = vals.any badValue := by
  induction vals with
  | nil => rfl
  | cons v rest ih =>
    by_cases h : (v.isNaN || !v.isFinite) = true
    · simp [scanVals, badValue, h]
    · simp [scanVals, badValue, h, ih]

theorem scanVals_find (k : String) (vals : List JSNumber) (v : JSNumber)
    (h : vals.find? badValue = some v) :
    scanVals k vals = (true, [warnMsg v k]) := by
  induction vals with
  | nil => simp at h
  | cons w rest ih =>
    by_cases hw : badValue w = true
    · rw [List.find?_cons_of_pos _ hw] at h
      injection h with h
      subst h
      unfold badValue at hw
      simp [scanVals, hw]
    · rw [List.find?_cons_of_neg _ (by simp [hw])] at h
      have hw' : (w.isNaN || !w.isFinite) = false := by
        simpa [badValue] using hw
      simp [scanVals, hw', ih h]

theorem scanVals_outcomes (k : String) (vals : List JSNumber) :
    scanVals k vals = (false, []) ∨
      ∃ v, vals.find? badValue = some v ∧ scanVals k vals = (true, [warnMsg v k]) := by
  cases hf : vals.find? badValue with
  | none =>
    left
    induction vals with
    | nil => rfl
    | cons w rest ih =>
      rw [List.find?_cons] at hf
      cases hw : badValue w with
      | true => rw [hw] at hf; simp at hf
      | false =>
        rw [hw] at hf
        have hw' : (w.isNaN || !w.isFinite) = false := by
          simpa [badValue] using hw
        simp [scanVals, hw', ih hf]
  | some v =>
    right
    exact ⟨v, rfl, scanVals_find k vals v hf⟩

theorem outputContinuation_resolved (k : String) (inputs : NamedTensorMap)
    (timing : TimingInfo) (r : TensorInfo) (vals : BackendValues) :
    Profiler.outputContinuation k inputs (.resolved vals) timing true true r =
      (checkComputationForErrors vals r.dtype k).2.map Event.warn ++
        [Event.logCall k r vals timing.kernelMs inputs
          (timing.getExtraProfileInfo.getD "")] := by
  simp [Profiler.outputContinuation]

theorem outputContinuation_kinds (k : String) (inputs : NamedTensorMap)
    (read : ReadOutcome) (timing : TimingInfo) (rr tr : Bool) (r : TensorInfo) :
    ∀ e ∈ Profiler.outputContinuation k inputs read timing rr tr r,
      e.isWarn = true ∨ e.isLogCall = true := by
  intro e he
  unfold Profiler.outputContinuation at he
  split at he
  · cases read with
    | rejected err => simp at he
    | resolved vals =>
      rcases List.mem_append.mp he with hw | hl
      · rcases List.mem_map.mp hw with ⟨m, _, hm⟩
        exact Or.inl (by simp [← hm, Event.isWarn])
      · split at hl
        · simp at hl
          exact Or.inr (by simp [hl, Event.isLogCall])
        · simp at hl
  · simp at he

theorem warn_or_log_not_compute (e : Event)
    (h : e.isWarn = true ∨ e.isLogCall = true) : e.isComputeCall = false := by
  cases e <;> simp_all [Event.isWarn, Event.isLogCall, Event.isComputeCall]

theorem countP_map_warn_isLogCall (l : List String) :
    (l.map Event.warn).countP Event.isLogCall = 0 := by
  rw [List.countP_map]
  exact List.countP_eq_zero.mpr (by intro a _; simp [Function.comp, Event.isLogCall])

/-- C2: `checkComputationForErrors` returns `true` iff the data type is
`float32` and some value is NaN or not finite; for any non-`float32` data
type it returns `false` (emitting nothing) for every value sequence. -/
theorem checkComputationForErrors_true_iff (vals : BackendValues)
    (dtype : DataType) (k : String) :
    ((checkComputationForErrors vals dtype k).1 = true ↔
      dtype = DataType.float32 ∧
        ∃ v ∈ vals, v.isNaN = true ∨ v.isFinite = false) ∧
    (dtype ≠ DataType.float32 → checkComputationForErrors vals dtype k = (false, [])) := by
  constructor
  · unfold checkComputationForErrors
    split
    · next h => simp [h]
    · next h =>
      have hf : dtype = DataType.float32 := by
        by_contra hc
        exact h hc
      rw [scanVals_fst, List.any_eq_true]
      simp only [hf, true_and, badValue]
      constructor
      · rintro ⟨v, hv, hb⟩
        rcases Bool.or_eq_true_iff.mp hb with h1 | h1
        · exact ⟨v, hv, Or.inl h1⟩
        · exact ⟨v, hv, Or.inr (by simpa using h1)⟩
      · rintro ⟨v, hv, h1 | h1⟩
        · exact ⟨v, hv, Bool.or_eq_true_iff.mpr (Or.inl h1)⟩
        · exact ⟨v, hv, Bool.or_eq_true_iff.mpr (Or.inr (by simp [h1]))⟩
  · intro h
    simp [checkComputationForErrors, h]

/-- Witness for C2 at a concrete input: an `int32` sequence containing a
NaN representation is reported clean, with no warning emitted. -/
theorem checkComputationForErrors_true_iff_witness :
    checkComputationForErrors [nanNum] DataType.int32 "Add" = (false, []) :=
  (checkComputationForErrors_true_iff [nanNum] DataType.int32 "Add").2 (by decide)

/-- C4: on a float32 sequence whose first offending value (first NaN or
non-finite entry) is `v`, `checkComputationForErrors` returns `true` with
exactly one warning, naming `v` and the kernel name; later offending values
are not reported. -/
theorem checkComputationForErrors_first_warning (vals : BackendValues)
    (k : String) (v : JSNumber) (h : vals.find? badValue = some v) :
    checkComputationForErrors vals DataType.float32 k = (true, [warnMsg v k]) ∧
    (checkComputationForErrors vals DataType.float32 k).2.length = 1 := by
  have he : checkComputationForErrors vals DataType.float32 k = scanVals k vals := by
    simp [checkComputationForErrors]
  rw [he, scanVals_find k vals v h]
  exact ⟨rfl, rfl⟩

/-- Witness for C4: for `[1.0, NaN, 3.0]` under `float32`, the result is
`true` with exactly the one warning naming `NaN` and the kernel. -/
theorem checkComputationForErrors_first_warning_witness :
    checkComputationForErrors [finiteNum "1", nanNum, finiteNum "3"]
        DataType.float32 "MatMul" =
      (true, ["Found NaN in the result of \x27MatMul\x27"]) ∧
    (checkComputationForErrors [finiteNum "1", nanNum, finiteNum "3"]
        DataType.float32 "MatMul").2.length = 1 :=
  checkComputationForErrors_first_warning
    [finiteNum "1", nanNum, finiteNum "3"] "MatMul" nanNum rfl

/-- C1: `profileKernel` returns exactly the value produced by the compute
closure, unmodified, and the return shape mirrors the closure's output
shape: a single descriptor comes back as that single descriptor, and an
ordered sequence comes back as the same sequence.  (The backend timer is
assumed, per its contract, to invoke the wrapper synchronously before
returning, which is how the captured result is populated.) -/
theorem profileKernel_return_exact (k : String) (inputs : NamedTensorMap)
    (fOut : KernelOutput) (reads : Nat → ReadOutcome) (timing : TimingInfo)
    (rr : Nat → Bool) (tr : Bool) :
    (Profiler.profileKernel k inputs fOut reads timing rr tr).1 = fOut ∧
    (∀ t, fOut = KernelOutput.single t →
      (Profiler.profileKernel k inputs fOut reads timing rr tr).1 =
        KernelOutput.single t) ∧
    (∀ ts, fOut = KernelOutput.many ts →
      (Profiler.profileKernel k inputs fOut reads timing rr tr).1 =
        KernelOutput.many ts) := by
  refine ⟨rfl, ?_, ?_⟩
  · intro t h
    simp [Profiler.profileKernel, h]
  · intro ts h
    simp [Profiler.profileKernel, h]

/-- Witness for C1: a single-descriptor closure output is returned as that
same single descriptor. -/
theorem profileKernel_return_exact_witness :
    (Profiler.profileKernel "Add" sampleInputs (KernelOutput.single sampleTensor)
        (fun _ => ReadOutcome.resolved sampleVals) sampleTiming
        (fun _ => false) false).1 = KernelOutput.single sampleTensor :=
  (profileKernel_return_exact "Add" sampleInputs (KernelOutput.single sampleTensor)
      (fun _ => ReadOutcome.resolved sampleVals) sampleTiming
      (fun _ => false) false).2.1 sampleTensor rfl

/-- C3: one `profileKernel` call invokes the compute closure exactly once,
synchronously during the call (it is the single `computeCall` event of the
synchronous trace, performed inside the backend timer's call as assumed by
the timer contract), and never again in any continuation — regardless of
how many output descriptors the closure produces. -/
theorem profileKernel_compute_once (k : String) (inputs : NamedTensorMap)
    (fOut : KernelOutput) (reads : Nat → ReadOutcome) (timing : TimingInfo)
    (rr : Nat → Bool) (tr : Bool) :
    ((Profiler.profileKernel k inputs fOut reads timing rr tr).2.1.countP
        Event.isComputeCall = 1) ∧
    (Event.computeCall ∈ (Profiler.profileKernel k inputs fOut reads timing rr tr).2.1) ∧
    (∀ c ∈ (Profiler.profileKernel k inputs fOut reads timing rr tr).2.2,
      c.countP Event.isComputeCall = 0) := by
  refine ⟨?_, ?_, ?_⟩
  · simp only [Profiler.profileKernel, List.countP_append, List.countP_map]
    rw [List.countP_cons, List.countP_cons]
    simp [Event.isComputeCall, List.countP_eq_zero, Function.comp]
  · simp [Profiler.profileKernel]
  · intro c hc
    simp only [Profiler.profileKernel, List.mem_map] at hc
    rcases hc with ⟨r, _, hr⟩
    refine List.countP_eq_zero.mpr ?_
    intro e he
    rw [← hr] at he
    have := outputContinuation_kinds k inputs (reads r.dataId) timing
      (rr r.dataId) tr r e he
    simp [warn_or_log_not_compute e this]

/-- Witness for C3: with two output descriptors the compute closure still
runs exactly once. -/
theorem profileKernel_compute_once_witness :
    (Profiler.profileKernel "Add" sampleInputs
        (KernelOutput.many [sampleTensor, sampleTensor])
        (fun _ => ReadOutcome.resolved sampleVals) sampleTiming
        (fun _ => true) true).2.1.countP Event.isComputeCall = 1 :=
  (profileKernel_compute_once "Add" sampleInputs
      (KernelOutput.many [sampleTensor, sampleTensor])
      (fun _ => ReadOutcome.resolved sampleVals) sampleTiming
      (fun _ => true) true).1

/-- C7: one `profileKernel` call performs exactly one timer invocation, and
per output descriptor exactly one data-read (in the synchronous phase,
registering the continuation) and exactly one logger call (in that output's
continuation, once the deferrals resolve); no logger call or warning
happens in the synchronous phase, i.e. before `profileKernel` returns. -/
theorem profileKernel_side_effects (k : String) (inputs : NamedTensorMap)
    (fOut : KernelOutput) (reads : Nat → ReadOutcome) (timing : TimingInfo)
    (hres : ∀ id, ∃ vals, reads id = ReadOutcome.resolved vals) :
    ((Profiler.profileKernel k inputs fOut reads timing (fun _ => true) true).2.1.countP
        Event.isTimerCall = 1) ∧
    ((Profiler.profileKernel k inputs fOut reads timing (fun _ => true) true).2.1.filter
        Event.isDataRead =
      (toResultsList fOut).map (fun r => Event.dataRead r.dataId)) ∧
    ((Profiler.profileKernel k inputs fOut reads timing (fun _ => true) true).2.2.length =
      (toResultsList fOut).length) ∧
    (∀ c ∈ (Profiler.profileKernel k inputs fOut reads timing (fun _ => true) true).2.2,
      c.countP Event.isLogCall = 1) ∧
    ((Profiler.profileKernel k inputs fOut reads timing (fun _ => true) true).2.1.countP
        Event.isLogCall = 0) ∧
    ((Profiler.profileKernel k inputs fOut reads timing (fun _ => true) true).2.1.countP
        Event.isWarn = 0) := by
  refine ⟨?_, ?_, ?_, ?_, ?_, ?_⟩
  · simp only [Profiler.profileKernel, List.countP_append, List.countP_map]
    rw [List.countP_cons, List.countP_cons]
    simp [Event.isTimerCall, List.countP_eq_zero, Function.comp]
  · simp only [Profiler.profileKernel]
    rw [List.filter_append]
    have h1 : List.filter Event.isDataRead [Event.timerCall, Event.computeCall] = [] := rfl
    rw [h1, List.nil_append, List.filter_map]
    have h2 : List.filter (Event.isDataRead ∘ fun r => Event.dataRead r.dataId)
        (toResultsList fOut) = toResultsList fOut := by
      refine List.filter_eq_self.mpr ?_
      intro r _
      simp [Function.comp, Event.isDataRead]
    rw [h2]
  · simp [Profiler.profileKernel]
  · intro c hc
    simp only [Profiler.profileKernel, List.mem_map] at hc
    rcases hc with ⟨r, _, hr⟩
    rcases hres r.dataId with ⟨vals, hv⟩
    rw [← hr, hv, outputContinuation_resolved, List.countP_append,
      countP_map_warn_isLogCall]
    simp [Event.isLogCall]
  · simp only [Profiler.profileKernel, List.countP_append, List.countP_map]
    rw [List.countP_cons, List.countP_cons]
    simp [Event.isLogCall, List.countP_eq_zero, Function.comp]
  · simp only [Profiler.profileKernel, List.countP_append, List.countP_map]
    rw [List.countP_cons, List.countP_cons]
    simp [Event.isWarn, List.countP_eq_zero, Function.comp]

/-- Witness for C7: one timer invocation at a concrete run whose reads all
resolve. -/
theorem profileKernel_side_effects_witness :
    (Profiler.profileKernel "Add" sampleInputs
        (KernelOutput.many [sampleTensor, sampleTensor])
        (fun _ => ReadOutcome.resolved sampleVals) sampleTiming
        (fun _ => true) true).2.1.countP Event.isTimerCall = 1 :=
  (profileKernel_side_effects "Add" sampleInputs
      (KernelOutput.many [sampleTensor, sampleTensor])
      (fun _ => ReadOutcome.resolved sampleVals) sampleTiming
      (fun _ => ⟨sampleVals, rfl⟩)).1

/-- C5: for the `i`-th output descriptor `r` of a `profileKernel` call,
once that output's read has resolved with `vals` and the timing deferral
has resolved, the continuation's events are the validation warnings
followed by exactly one logger call carrying: the kernel name, that
descriptor, the raw values read, `timing.kernelMs`, the original inputs
mapping, and the timing handle's extra-info string when the accessor is
present, the empty string otherwise. -/
theorem profileKernel_logger_args (k : String) (inputs : NamedTensorMap)
    (fOut : KernelOutput) (reads : Nat → ReadOutcome) (timing : TimingInfo)
    (i : Nat) (r : TensorInfo) (vals : BackendValues)
    (hr : (toResultsList fOut).get? i = some r)
    (hread : reads r.dataId = ReadOutcome.resolved vals) :
    ((Profiler.profileKernel k inputs fOut reads timing (fun _ => true) true).2.2.get? i =
      some ((checkComputationForErrors vals r.dtype k).2.map Event.warn ++
        [Event.logCall k r vals timing.kernelMs inputs
          (timing.getExtraProfileInfo.getD "")])) ∧
    (∀ c, (Profiler.profileKernel k inputs fOut reads timing (fun _ => true) true).2.2.get? i =
        some c → c.countP Event.isLogCall = 1) ∧
    (timing.getExtraProfileInfo = none → timing.getExtraProfileInfo.getD "" = "") ∧
    (∀ s, timing.getExtraProfileInfo = some s →
      timing.getExtraProfileInfo.getD "" = s) := by
  have hmain :
      (Profiler.profileKernel k inputs fOut reads timing (fun _ => true) true).2.2.get? i =
        some ((checkComputationForErrors vals r.dtype k).2.map Event.warn ++
          [Event.logCall k r vals timing.kernelMs inputs
            (timing.getExtraProfileInfo.getD "")]) := by
    simp only [Profiler.profileKernel]
    rw [List.get?_map, hr, Option.map_some']
    rw [hread, outputContinuation_resolved]
  refine ⟨hmain, ?_, ?_, ?_⟩
  · intro c hcg
    rw [hmain] at hcg
    injection hcg with hcg
    rw [← hcg, List.countP_append, countP_map_warn_isLogCall]
    simp [Event.isLogCall]
  · intro h
    simp [h]
  · intro s h
    simp [h]

/-- Witness for C5: the concrete "Add" kernel of the spec example —
float32 output of shape `[2,2]` with values `[1,2,3,4]`, no extra-info
accessor — yields a continuation holding exactly the logger call with those
arguments and the empty extra-info string. -/
theorem profileKernel_logger_args_witness :
    (Profiler.profileKernel "Add" sampleInputs (KernelOutput.single sampleTensor)
        (fun _ => ReadOutcome.resolved sampleVals) sampleTiming
        (fun _ => true) true).2.2.get? 0 =
      some [Event.logCall "Add" sampleTensor sampleVals 5 sampleInputs ""] :=
  (profileKernel_logger_args "Add" sampleInputs (KernelOutput.single sampleTensor)
      (fun _ => ReadOutcome.resolved sampleVals) sampleTiming
      0 sampleTensor sampleVals rfl rfl).1

/-- C6: for the `i`-th output of a `profileKernel` call, a logger event
appears in that output's continuation only after both that output's read
and the shared timing deferral have resolved; before the read resolves the
continuation has run nothing, and once the read resolves validation's
warnings are emitted — preceding the logger call, which additionally waits
for the timer. -/
theorem profileKernel_log_after_both (k : String) (inputs : NamedTensorMap)
    (fOut : KernelOutput) (reads : Nat → ReadOutcome) (timing : TimingInfo)
    (rr : Nat → Bool) (tr : Bool) (i : Nat) (r : TensorInfo) (c : List Event)
    (hr : (toResultsList fOut).get? i = some r)
    (hc : (Profiler.profileKernel k inputs fOut reads timing rr tr).2.2.get? i = some c) :
    ((∃ e ∈ c, e.isLogCall = true) → rr r.dataId = true ∧ tr = true) ∧
    (rr r.dataId = false → c = []) ∧
    (∀ vals, reads r.dataId = ReadOutcome.resolved vals → rr r.dataId = true →
      tr = false → c = (checkComputationForErrors vals r.dtype k).2.map Event.warn) ∧
    (∀ vals, reads r.dataId = ReadOutcome.resolved vals → rr r.dataId = true →
      tr = true →
      c = (checkComputationForErrors vals r.dtype k).2.map Event.warn ++
        [Event.logCall k r vals timing.kernelMs inputs
          (timing.getExtraProfileInfo.getD "")]) := by
  have hcont : c = Profiler.outputContinuation k inputs (reads r.dataId) timing
      (rr r.dataId) tr r := by
    simp only [Profiler.profileKernel] at hc
    rw [List.get?_map, hr, Option.map_some'] at hc
    injection hc with hc
    exact hc.symm
  refine ⟨?_, ?_, ?_, ?_⟩
  · rintro ⟨e, he, hlog⟩
    rw [hcont] at he
    unfold Profiler.outputContinuation at he
    split at he
    · next hrr =>
      cases hread : reads r.dataId with
      | rejected err => rw [hread] at he; simp at he
      | resolved vals =>
        rw [hread] at he
        rcases List.mem_append.mp he with hw | hl
        · rcases List.mem_map.mp hw with ⟨m, _, hm⟩
          rw [← hm] at hlog
          simp [Event.isLogCall] at hlog
        · split at hl
          · next htr => exact ⟨hrr, htr⟩
          · simp at hl
    · simp at he
  · intro h
    rw [hcont]
    unfold Profiler.outputContinuation
    simp [h]
  · intro vals hread hrr htr
    rw [hcont]
    unfold Profiler.outputContinuation
    simp [hread, hrr, htr]
  · intro vals hread hrr htr
    rw [hcont, hread, hrr, htr, outputContinuation_resolved]

/-- Witness for C6: at a concrete fully-resolved run, the continuation of
the single output is exactly the logger event (no warnings, since the
values are clean). -/
theorem profileKernel_log_after_both_witness :
    [Event.logCall "Sub" sampleTensor sampleVals 5 sampleInputs ""] =
      (checkComputationForErrors sampleVals sampleTensor.dtype "Sub").2.map Event.warn ++
        [Event.logCall "Sub" sampleTensor sampleVals sampleTiming.kernelMs sampleInputs
          (sampleTiming.getExtraProfileInfo.getD "")] :=
  (profileKernel_log_after_both "Sub" sampleInputs (KernelOutput.single sampleTensor)
      (fun _ => ReadOutcome.resolved sampleVals) sampleTiming
      (fun _ => true) true 0 sampleTensor
      [Event.logCall "Sub" sampleTensor sampleVals 5 sampleInputs ""]
      rfl rfl).2.2.2 sampleVals rfl rfl rfl

/-- C8: no error reaches the caller of `profileKernel`.  The value it
returns does not depend on the outcome of the reads, the timing, or which
deferrals resolve (so a rejected read or a failure inside the dangling
continuation is invisible to the caller); `checkComputationForErrors`
always yields a boolean result — a clean `(false, [])` or `(true, one
warning)` — never a raised exception; and the continuations' only effects
are warnings and logger lines. -/
theorem profileKernel_no_caller_error (k : String) (inputs : NamedTensorMap)
    (fOut : KernelOutput) :
    (∀ reads reads2 timing timing2 rr rr2 tr tr2,
      (Profiler.profileKernel k inputs fOut reads timing rr tr).1 =
        (Profiler.profileKernel k inputs fOut reads2 timing2 rr2 tr2).1) ∧
    (∀ reads timing rr tr,
      (Profiler.profileKernel k inputs fOut reads timing rr tr).1 = fOut) ∧
    (∀ vals dtype,
      checkComputationForErrors vals dtype k = (false, []) ∨
        ∃ v, checkComputationForErrors vals dtype k = (true, [warnMsg v k])) ∧
    (∀ reads timing rr tr,
      ∀ c ∈ (Profiler.profileKernel k inputs fOut reads timing rr tr).2.2,
        ∀ e ∈ c, e.isWarn = true ∨ e.isLogCall = true) := by
  refine ⟨fun _ _ _ _ _ _ _ _ => rfl, fun _ _ _ _ => rfl, ?_, ?_⟩
  · intro vals dtype
    unfold checkComputationForErrors
    split
    · exact Or.inl rfl
    · rcases scanVals_outcomes k vals with h | ⟨v, _, h⟩
      · exact Or.inl h
      · exact Or.inr ⟨v, h⟩
  · intro reads timing rr tr c hc e he
    simp only [Profiler.profileKernel, List.mem_map] at hc
    rcases hc with ⟨r, _, hr⟩
    rw [← hr] at he
    exact outputContinuation_kinds k inputs (reads r.dataId) timing
      (rr r.dataId) tr r e he

/-- Witness for C8: at a concrete run whose read promise rejects, the
caller still receives exactly the closure's output. -/
theorem profileKernel_no_caller_error_witness :
    (Profiler.profileKernel "Add" sampleInputs (KernelOutput.single sampleTensor)
        (fun _ => ReadOutcome.rejected "read failed") sampleTiming
        (fun _ => true) true).1 = KernelOutput.single sampleTensor :=
  (profileKernel_no_caller_error "Add" sampleInputs
      (KernelOutput.single sampleTensor)).2.1
    (fun _ => ReadOutcome.rejected "read failed") sampleTiming
    (fun _ => true) true

theorem rightPad_padding (s : String) (w : Nat) :
    ∃ pad, rightPad s w = s ++ pad ∧ w ≤ (rightPad s w).length := by
  unfold rightPad
  split
  · next h =>
    exact ⟨"", by simp, by simpa using h⟩
  · next h =>
    refine ⟨String.mk (List.replicate (w - s.length) ' '), rfl, ?_⟩
    simp only [String.length_append, String.length_mk, List.length_replicate]
    simp only [String.length] at h ⊢
    omega

/-- C9: `logKernelProfile` emits exactly one line; that line carries, in
fixed order separated by tab and `%c` style markers: the kernel name padded
to width 25, the elapsed time suffixed `ms` padded to width 9, the output
rank and shape padded to width 14, the output element count, the
space-joined input descriptions, and the extra-info string.  The final
conjunct states what padding to a width means: the padded column starts
with the content and has length at least the width. -/
theorem logKernelProfile_line (name : String) (result : TensorInfo)
    (vals : BackendValues) (timeMs : Nat) (inputs : NamedTensorMap)
    (extraInfo : String) :
    ((Logger.logKernelProfile name result vals timeMs inputs extraInfo).length = 1) ∧
    (Logger.logKernelProfile name result vals timeMs inputs extraInfo =
      ["%c" ++ rightPad name 25 ++ "\t%c" ++ rightPad (toString timeMs ++ "ms") 9 ++
        "\t%c" ++ toString result.shape.length ++ "D " ++
        rightPad (shapeToString result.shape) 14 ++ "\t%c" ++
        toString (sizeFromShape result.shape) ++ "\t%c" ++
        Logger.inputShapesDescription inputs ++ "\t%c" ++ extraInfo]) ∧
    (∀ s w, ∃ pad, rightPad s w = s ++ pad ∧ w ≤ (rightPad s w).length) :=
  ⟨rfl, rfl, rightPad_padding⟩

/-- C10: in the input-description portion of the logged line, a rank-0
input is rendered as its name and `0D` with no shape text, while an input
of rank greater than 0 has its shape rendered after `D`; the full
description is the concatenation of the per-input renderings in mapping
order. -/
theorem inputShapesDescription_rank (n : String) (t : TensorInfo)
    (rest : NamedTensorMap) :
    (t.shape.length = 0 → Logger.inputDescEntry n t = n ++ ": 0D  ") ∧
    (0 < t.shape.length →
      Logger.inputDescEntry n t =
        n ++ ": " ++ toString t.shape.length ++ "D " ++
          shapeToString t.shape ++ " ") ∧
    (Logger.inputShapesDescription ((n, t) :: rest) =
      Logger.inputDescEntry n t ++ Logger.inputShapesDescription rest) := by
  refine ⟨?_, ?_, rfl⟩
  · intro h
    have ht : t.shape = [] := List.length_eq_zero.mp h
    simp only [Logger.inputDescEntry, ht]
    rw [String.append_assoc, String.append_assoc, String.append_assoc,
      String.append_assoc]
    rfl
  · intro h
    simp only [Logger.inputDescEntry, if_pos h]

/-- Witness for C10: the concrete scalar input `s` renders as `s: 0D` with
no shape, and a `[2,2]` input renders with its shape. -/
theorem inputShapesDescription_rank_witness :
    Logger.inputDescEntry "s"
        { dataId := 1, shape := [], dtype := DataType.float32 } = "s: 0D  " :=
  (inputShapesDescription_rank "s"
      { dataId := 1, shape := [], dtype := DataType.float32 } []).1 rfl

end TfjsProfiler
